import Mathlib

/-!
Shallow embedding of the Pefy personal-finance dashboard's currency/number
formatting engine and ledger engine (`src/utils/currencyFormatter.ts`,
`src/utils/numberFormatter.ts`, and the `DataManager` module in the same
file), together with theorems settling the specification claims.

Modelling conventions:
* JavaScript `number` values are modelled as `ℚ`.  Every numeric literal
  appearing in the claims (0, 0.5, 999.99, 1000, 1234567.89, …) and every
  intermediate value the theorems evaluate is exactly representable, so
  rational arithmetic agrees with IEEE-754 double arithmetic there.
  Because the library's rational arithmetic is `@[irreducible]`, the
  embedding computes with reducible clones (`ratAdd`, `ratSub`, …) built on
  `mkRat`; bridge lemmas prove each clone equal to the standard operation.
* `Number.prototype.toFixed(f)` is modelled by the ECMAScript algorithm: a
  leading "-" for negative input, then the integer `n` minimising
  `|n / 10^f - |x||`, ties towards the larger `n`, printed with at least
  `f+1` digits and a decimal point before the last `f` digits.
* The JavaScript string/regex operations the source uses are modelled by
  dedicated functions on `List Char`; each doc comment states the exact
  semantics captured (on the inputs those operations receive here).
-/

/-! ## Reducible rational arithmetic -/

/-- JavaScript `+` on numbers (exact rational model).  Defined through
`mkRat` so that it reduces in the kernel; `ratAdd_eq` identifies it with
rational addition. -/
def ratAdd (a b : ℚ) : ℚ := mkRat (a.num * b.den + b.num * a.den) (a.den * b.den)

/-- JavaScript `-` on numbers (exact rational model). -/
def ratSub (a b : ℚ) : ℚ := mkRat (a.num * b.den - b.num * a.den) (a.den * b.den)

/-- Division of a number by `10^k` (the only divisions the sources perform
are by powers of ten). -/
def ratDivPow10 (a : ℚ) (k : ℕ) : ℚ := mkRat a.num (a.den * 10 ^ k)

/-- The decimal literal `n / 10^k`, e.g. `dec 99999 2 = 999.99`. -/
def dec (n : ℤ) (k : ℕ) : ℚ := mkRat n (10 ^ k)

/-- `Math.abs` (and the sign-splitting step of `toFixed`). -/
def ratAbs (a : ℚ) : ℚ := if a < 0 then -a else a

/-! ## Decimal digit strings -/

/-- Decimal digit characters of `n`, most significant first; `fuel`-driven so
that it reduces structurally (the fuel `n+1` always suffices). -/
def natDigitsAux : Nat → Nat → List Char → List Char
  | 0, _, acc => acc
  | fuel + 1, n, acc =>
    let d := Char.ofNat (48 + n % 10)
    if n < 10 then d :: acc else natDigitsAux fuel (n / 10) (d :: acc)

/-- Decimal digit characters of a natural number (`String(n)` in JS). -/
def natDigits (n : Nat) : List Char := natDigitsAux (n + 1) n []

/-- Decimal representation of a natural number as a `String`. -/
def natRepr (n : Nat) : String := ⟨natDigits n⟩

/-- Decimal representation of an integer (`String(i)` in JS). -/
def intRepr (i : ℤ) : String :=
  if i < 0 then "-" ++ natRepr i.natAbs else natRepr i.natAbs

/-- Left-pad a digit list with `'0'` up to length `k`. -/
def padLeftZeros (s : List Char) (k : Nat) : List Char :=
  List.replicate (k - s.length) '0' ++ s

/-- The scaled mantissa of ECMAScript `toFixed`: the integer `n` closest to
`|a| * 10^f`, ties towards the larger `n`, computed as
`⌊|a| * 10^f + 1/2⌋ = (2 * |num| * 10^f + den) / (2 * den)` entirely in `ℕ`. -/
def toFixedScaled (a : ℚ) (f : ℕ) : ℕ :=
  (2 * a.num.natAbs * 10 ^ f + a.den) / (2 * a.den)

/-- `toFixed` split at the decimal point, as the source's
`amount.toFixed(config.decimals).split('.')`: the first component is the
(possibly signed) integer part, the second the `f` fraction digits (`""`
standing for the absent `parts[1]` when `f = 0`). -/
def toFixedParts (a : ℚ) (f : ℕ) : List Char × List Char :=
  let sign : List Char := if a.num < 0 then ['-'] else []
  let ds := padLeftZeros (natDigits (toFixedScaled a f)) (f + 1)
  (sign ++ ds.take (ds.length - f), ds.drop (ds.length - f))

/-- ECMAScript `Number.prototype.toFixed` as a string. -/
def toFixed (a : ℚ) (f : ℕ) : String :=
  let p := toFixedParts a f
  if f = 0 then ⟨p.1⟩ else ⟨p.1⟩ ++ "." ++ ⟨p.2⟩

/-! ## Digit grouping (the thousands-separator regexes) -/

/-- Core of `replace(/\B(?=(\d{g})+(?!\d))/g, sep)` on an all-digit string:
after each digit, the separator is inserted exactly when the remaining digit
suffix has positive length divisible by `g` (which is when the lookahead
`(\d{g})+(?!\d)` holds at an interior position). -/
def groupGo (sep : String) (g : ℕ) : List Char → String
  | [] => ""
  | c :: cs =>
    String.singleton c ++
      (if cs.length % g = 0 ∧ cs.length ≠ 0 then sep else "") ++ groupGo sep g cs

/-- `s.replace(/\B(?=(\d{g})+(?!\d))/g, sep)` for `s` an optional minus sign
followed by decimal digits (the only strings the source applies it to): `\B`
rules out the position at the start and the one right after the sign, since
`-` is not a word character. -/
def groupDigits (sep : String) (g : ℕ) (s : List Char) : String :=
  match s with
  | '-' :: ds => "-" ++ groupGo sep g ds
  | ds => groupGo sep g ds

/-! ## CurrencyFormatter (`src/utils/currencyFormatter.ts`) -/

/-- Where the currency symbol goes relative to the number. -/
inductive SymbolPosition where
  | before
  | after
  deriving DecidableEq

/-- `CurrencyConfig` from the source. -/
structure CurrencyConfig where
  code : String
  symbol : String
  name : String
  locale : String
  decimals : ℕ
  symbolPosition : SymbolPosition
  thousandsSeparator : String
  decimalSeparator : String
  deriving DecidableEq

/-- The apostrophe character (CHF's thousands separator). -/
def apostropheStr : String := String.singleton (Char.ofNat 39)

/-- `CURRENCIES.USD`. -/
def usdConfig : CurrencyConfig :=
  { code := "USD", symbol := "$", name := "US Dollar", locale := "en-US",
    decimals := 2, symbolPosition := .before,
    thousandsSeparator := ",", decimalSeparator := "." }

/-- The `CURRENCIES` table, in source enumeration order. -/
def CURRENCIES : List (String × CurrencyConfig) :=
  [("USD", usdConfig),
   ("EUR", { code := "EUR", symbol := "€", name := "Euro", locale := "de-DE",
             decimals := 2, symbolPosition := .after,
             thousandsSeparator := ".", decimalSeparator := "," }),
   ("GBP", { code := "GBP", symbol := "£", name := "British Pound", locale := "en-GB",
             decimals := 2, symbolPosition := .before,
             thousandsSeparator := ",", decimalSeparator := "." }),
   ("JPY", { code := "JPY", symbol := "¥", name := "Japanese Yen", locale := "ja-JP",
             decimals := 0, symbolPosition := .before,
             thousandsSeparator := ",", decimalSeparator := "." }),
   ("IDR", { code := "IDR", symbol := "Rp", name := "Indonesian Rupiah", locale := "id-ID",
             decimals := 2, symbolPosition := .before,
             thousandsSeparator := ".", decimalSeparator := "," }),
   ("INR", { code := "INR", symbol := "₹", name := "Indian Rupee", locale := "en-IN",
             decimals := 2, symbolPosition := .before,
             thousandsSeparator := ",", decimalSeparator := "." }),
   ("CNY", { code := "CNY", symbol := "¥", name := "Chinese Yuan", locale := "zh-CN",
             decimals := 2, symbolPosition := .before,
             thousandsSeparator := ",", decimalSeparator := "." }),
   ("KRW", { code := "KRW", symbol := "₩", name := "South Korean Won", locale := "ko-KR",
             decimals := 0, symbolPosition := .before,
             thousandsSeparator := ",", decimalSeparator := "." }),
   ("AUD", { code := "AUD", symbol := "A$", name := "Australian Dollar", locale := "en-AU",
             decimals := 2, symbolPosition := .before,
             thousandsSeparator := ",", decimalSeparator := "." }),
   ("CAD", { code := "CAD", symbol := "C$", name := "Canadian Dollar", locale := "en-CA",
             decimals := 2, symbolPosition := .before,
             thousandsSeparator := ",", decimalSeparator := "." }),
   ("CHF", { code := "CHF", symbol := "CHF", name := "Swiss Franc", locale := "de-CH",
             decimals := 2, symbolPosition := .before,
             thousandsSeparator := apostropheStr, decimalSeparator := "." }),
   ("SEK", { code := "SEK", symbol := "kr", name := "Swedish Krona", locale := "sv-SE",
             decimals := 2, symbolPosition := .after,
             thousandsSeparator := " ", decimalSeparator := "," }),
   ("NOK", { code := "NOK", symbol := "kr", name := "Norwegian Krone", locale := "nb-NO",
             decimals := 2, symbolPosition := .after,
             thousandsSeparator := " ", decimalSeparator := "," }),
   ("DKK", { code := "DKK", symbol := "kr", name := "Danish Krone", locale := "da-DK",
             decimals := 2, symbolPosition := .after,
             thousandsSeparator := ".", decimalSeparator := "," }),
   ("PLN", { code := "PLN", symbol := "zł", name := "Polish Zloty", locale := "pl-PL",
             decimals := 2, symbolPosition := .after,
             thousandsSeparator := " ", decimalSeparator := "," }),
   ("RUB", { code := "RUB", symbol := "₽", name := "Russian Ruble", locale := "ru-RU",
             decimals := 2, symbolPosition := .after,
             thousandsSeparator := " ", decimalSeparator := "," }),
   ("BRL", { code := "BRL", symbol := "R$", name := "Brazilian Real", locale := "pt-BR",
             decimals := 2, symbolPosition := .before,
             thousandsSeparator := ".", decimalSeparator := "," }),
   ("MXN", { code := "MXN", symbol := "$", name := "Mexican Peso", locale := "es-MX",
             decimals := 2, symbolPosition := .before,
             thousandsSeparator := ",", decimalSeparator := "." }),
   ("ZAR", { code := "ZAR", symbol := "R", name := "South African Rand", locale := "en-ZA",
             decimals := 2, symbolPosition := .before,
             thousandsSeparator := " ", decimalSeparator := "," }),
   ("SGD", { code := "SGD", symbol := "S$", name := "Singapore Dollar", locale := "en-SG",
             decimals := 2, symbolPosition := .before,
             thousandsSeparator := ",", decimalSeparator := "." }),
   ("HKD", { code := "HKD", symbol := "HK$", name := "Hong Kong Dollar", locale := "en-HK",
             decimals := 2, symbolPosition := .before,
             thousandsSeparator := ",", decimalSeparator := "." }),
   ("TWD", { code := "TWD", symbol := "NT$", name := "Taiwan Dollar", locale := "zh-TW",
             decimals := 0, symbolPosition := .before,
             thousandsSeparator := ",", decimalSeparator := "." }),
   ("THB", { code := "THB", symbol := "฿", name := "Thai Baht", locale := "th-TH",
             decimals := 2, symbolPosition := .before,
             thousandsSeparator := ",", decimalSeparator := "." }),
   ("MYR", { code := "MYR", symbol := "RM", name := "Malaysian Ringgit", locale := "ms-MY",
             decimals := 2, symbolPosition := .before,
             thousandsSeparator := ",", decimalSeparator := "." }),
   ("PHP", { code := "PHP", symbol := "₱", name := "Philippine Peso", locale := "en-PH",
             decimals := 2, symbolPosition := .before,
             thousandsSeparator := ",", decimalSeparator := "." }),
   ("VND", { code := "VND", symbol := "₫", name := "Vietnamese Dong", locale := "vi-VN",
             decimals := 0, symbolPosition := .after,
             thousandsSeparator := ".", decimalSeparator := "," }),
   ("AED", { code := "AED", symbol := "AED", name := "UAE Dirham", locale := "ar-AE",
             decimals := 2, symbolPosition := .before,
             thousandsSeparator := ",", decimalSeparator := "." }),
   ("SAR", { code := "SAR", symbol := "SR", name := "Saudi Riyal", locale := "ar-SA",
             decimals := 2, symbolPosition := .before,
             thousandsSeparator := ",", decimalSeparator := "." }),
   ("EGP", { code := "EGP", symbol := "E£", name := "Egyptian Pound", locale := "ar-EG",
             decimals := 2, symbolPosition := .before,
             thousandsSeparator := ",", decimalSeparator := "." }),
   ("ILS", { code := "ILS", symbol := "₪", name := "Israeli Shekel", locale := "he-IL",
             decimals := 2, symbolPosition := .before,
             thousandsSeparator := ",", decimalSeparator := "." }),
   ("TRY", { code := "TRY", symbol := "₺", name := "Turkish Lira", locale := "tr-TR",
             decimals := 2, symbolPosition := .before,
             thousandsSeparator := ".", decimalSeparator := "," })]

/-- `CURRENCIES[currencyCode] || CURRENCIES.USD`. -/
def lookupCurrency (currencyCode : String) : CurrencyConfig :=
  match CURRENCIES.find? (fun p => p.1 == currencyCode) with
  | some p => p.2
  | none => usdConfig

namespace CurrencyFormatter

/-- `CurrencyFormatter.formatNumber` (private static, lines 326-377): dispatch
on the currency code between IDR dot-grouping, INR lakh/crore grouping, and
standard triplet grouping of the `toFixed` rendering. -/
def formatNumber (amount : ℚ) (config : CurrencyConfig) : String :=
  if config.code = "IDR" then
    let parts := toFixedParts amount config.decimals
    let formattedInteger := groupDigits config.thousandsSeparator 3 parts.1
    if 0 < config.decimals ∧ parts.2 ≠ [] then
      formattedInteger ++ config.decimalSeparator ++ (⟨parts.2⟩ : String)
    else formattedInteger
  else if config.code = "INR" then
    let parts := toFixedParts amount config.decimals
    let ip := parts.1
    let integerPart : String :=
      if 3 < ip.length then
        let lastThree := ip.drop (ip.length - 3)
        let remaining := ip.take (ip.length - 3)
        groupDigits "," 2 remaining ++ "," ++ (⟨lastThree⟩ : String)
      else (⟨ip⟩ : String)
    if 0 < config.decimals ∧ parts.2 ≠ [] then
      integerPart ++ config.decimalSeparator ++ (⟨parts.2⟩ : String)
    else integerPart
  else
    let parts := toFixedParts amount config.decimals
    let formattedInteger := groupDigits config.thousandsSeparator 3 parts.1
    if 0 < config.decimals ∧ parts.2 ≠ [] then
      formattedInteger ++ config.decimalSeparator ++ (⟨parts.2⟩ : String)
    else formattedInteger

/-- `CurrencyFormatter.format` (lines 379-388). -/
def format (amount : ℚ) (currencyCode : String) : String :=
  let config := lookupCurrency currencyCode
  let formattedNumber := formatNumber amount config
  match config.symbolPosition with
  | .before => config.symbol ++ formattedNumber
  | .after => formattedNumber ++ " " ++ config.symbol

/-- `CurrencyFormatter.formatWithoutSymbol` (lines 390-393). -/
def formatWithoutSymbol (amount : ℚ) (currencyCode : String) : String :=
  formatNumber amount (lookupCurrency currencyCode)

end CurrencyFormatter

/-! ## String operations used by `CurrencyFormatter.parse` -/

/-- Is `pat` a prefix of `s`? (decidable, on `List Char`). -/
def listStartsWith (pat s : List Char) : Bool :=
  match pat, s with
  | [], _ => true
  | _ :: _, [] => false
  | p :: ps, c :: cs => p == c && listStartsWith ps cs

/-- `s.replace(pat, "")` for a JavaScript *string* pattern: remove the first
occurrence of `pat` (a nonempty string) from `s`, if any. -/
def removeFirst (pat : List Char) : List Char → List Char
  | [] => []
  | c :: cs =>
    if listStartsWith pat (c :: cs) then (c :: cs).drop pat.length
    else c :: removeFirst pat cs

/-- JavaScript `String.prototype.trim` on the strings arising here (whose
only whitespace characters are spaces). -/
def trimSpaces (s : List Char) : List Char :=
  ((s.dropWhile (· == ' ')).reverse.dropWhile (· == ' ')).reverse

/-- Global removal of a (single-character) separator:
`s.replace(new RegExp("\\" + sep, "g"), "")`. -/
def removeAllChar (ch : Char) (s : List Char) : List Char :=
  s.filter (fun c => c != ch)

/-- `s.replace(sep, ".")` with a string pattern: replace only the *first*
occurrence of the (single-character) decimal separator. -/
def replaceFirstChar (ch tc : Char) : List Char → List Char
  | [] => []
  | c :: cs => if c == ch then tc :: cs else c :: replaceFirstChar ch tc cs

/-- `s.split(ch)` (JavaScript `String.prototype.split` with a one-character
separator): the list of chunks between occurrences of `ch`. -/
def splitOnChar (ch : Char) : List Char → List (List Char)
  | [] => [[]]
  | c :: cs =>
    match splitOnChar ch cs with
    | [] => [[]]
    | p :: ps => if c == ch then [] :: p :: ps else (c :: p) :: ps

/-- Numeric value of a digit character. -/
def digitVal (c : Char) : ℕ := c.toNat - 48

/-- Value of a big-endian digit-character list. -/
def digitsVal (ds : List Char) : ℕ := ds.foldl (fun acc c => 10 * acc + digitVal c) 0

/-- JavaScript `parseFloat`: skip leading whitespace, read an optional sign,
then the longest prefix shaped `digits [. digits] [e [sign] digits]`; `none`
models `NaN` (no number prefix at all).  Exponents never occur in the strings
this development evaluates, but are included for completeness. -/
def parseFloatQ (s : List Char) : Option ℚ :=
  let s := s.dropWhile (· == ' ')
  let signNeg : Bool := match s with
    | '-' :: _ => true
    | _ => false
  let s := match s with
    | '-' :: t => t
    | '+' :: t => t
    | _ => s
  let ip := s.takeWhile Char.isDigit
  let rest := s.drop ip.length
  let fp := match rest with
    | '.' :: t => t.takeWhile Char.isDigit
    | _ => []
  let rest2 := match rest with
    | '.' :: t => t.drop fp.length
    | _ => rest
  if ip.isEmpty && fp.isEmpty then none
  else
    let mant : ℚ := mkRat (ip.foldl (fun acc c => 10 * acc + digitVal c) 0 * 10 ^ fp.length
      + digitsVal fp) (10 ^ fp.length)
    let withExp : ℚ := match rest2 with
      | 'e' :: t | 'E' :: t =>
        let expNeg : Bool := match t with
          | '-' :: _ => true
          | _ => false
        let t2 := match t with
          | '-' :: u => u
          | '+' :: u => u
          | _ => t
        let ed := t2.takeWhile Char.isDigit
        if ed.isEmpty then mant
        else if expNeg then mkRat mant.num (mant.den * 10 ^ digitsVal ed)
        else mkRat (mant.num * 10 ^ digitsVal ed) mant.den
      | _ => mant
    some (if signNeg then -withExp else withExp)

namespace CurrencyFormatter

/-- `CurrencyFormatter.parse` (lines 413-444): strip the symbol, trim, strip
thousands separators (unless they are `.`), swap the decimal separator for
`.`, apply the IDR special case, and `parseFloat(...) || 0`. -/
def parse (formattedAmount : String) (currencyCode : String) : ℚ :=
  let config := lookupCurrency currencyCode
  let cleaned := trimSpaces (removeFirst config.symbol.data formattedAmount.data)
  let cleaned :=
    if config.thousandsSeparator ≠ "." then
      match config.thousandsSeparator.data with
      | [ch] => removeAllChar ch cleaned
      | _ => cleaned
    else cleaned
  let cleaned :=
    if config.decimalSeparator ≠ "." then
      match config.decimalSeparator.data with
      | [ch] => replaceFirstChar ch '.' cleaned
      | _ => cleaned
    else cleaned
  let cleaned :=
    if config.code = "IDR" then
      match splitOnChar ',' cleaned with
      | [a, b] => removeAllChar '.' a ++ '.' :: b
      | _ => removeAllChar '.' cleaned
    else cleaned
  (parseFloatQ cleaned).getD 0

end CurrencyFormatter

/-! ## NumberFormatter (`src/utils/numberFormatter.ts`) -/

/-- `Math.round`: the integer nearest `q`, halves towards `+∞`, i.e.
`⌊q + 1/2⌋`, computed reducibly. -/
def roundJs (q : ℚ) : ℤ := (2 * q.num + q.den) / (2 * (q.den : ℤ))

/-- JavaScript `Number.prototype.toString` for the terminating-decimal
rationals that arise here: sign, integer digits, and — when the value is not
an integer — the exact fraction digits without trailing zeros (for a reduced
fraction whose denominator divides a power of 10, this shortest exact decimal
is what JS prints for the corresponding double).  A denominator dividing no
power of 10 cannot arise from the source's doubles; such values render at 20
fraction digits. -/
def qToString (q : ℚ) : String :=
  let sign : String := if q.num < 0 then "-" else ""
  let n := q.num.natAbs
  let ipart := n / q.den
  let fracNum := n % q.den
  if fracNum = 0 then sign ++ natRepr ipart
  else
    match (List.range (q.den + 1)).find? (fun k => 10 ^ k % q.den == 0) with
    | some k =>
      let ds := padLeftZeros (natDigits (fracNum * 10 ^ k / q.den)) k
      let ds := (ds.reverse.dropWhile (· == '0')).reverse
      sign ++ natRepr ipart ++ "." ++ (⟨ds⟩ : String)
    | none => sign ++ toFixed (mkRat (n : ℤ) q.den) 20

namespace NumberFormatter

/-- The static `abbreviations` table (thresholds stored as powers of ten). -/
def abbreviations : List (ℕ × String) := [(12, "T"), (9, "B"), (6, "M"), (3, "K")]

/-- The `for`-loop of `NumberFormatter.abbreviate`: the first abbreviation
whose threshold is at most `|value|` renders the quotient, with one decimal
when `forceDecimals` or the quotient is non-integral and `< 100`, else
rounded to an integer. -/
def abbreviateLoop (value : ℚ) (forceDecimals : Bool) : List (ℕ × String) → String
  | [] => qToString value
  | (e, sfx) :: rest =>
    if ((10 ^ e : ℕ) : ℚ) ≤ ratAbs value then
      let abbreviated := ratDivPow10 value e
      if forceDecimals ∨ (abbreviated.den ≠ 1 ∧ abbreviated < 100) then
        toFixed abbreviated 1 ++ sfx
      else intRepr (roundJs abbreviated) ++ sfx
    else abbreviateLoop value forceDecimals rest

/-- `NumberFormatter.abbreviate` (numberFormatter.ts lines 26-50).  The JS
tests `Math.abs(value) >= abbrev.threshold` and `abbreviated % 1 !== 0`
become `threshold ≤ |value|` and `abbreviated.den ≠ 1`. -/
def abbreviate (value : ℚ) (forceDecimals : Bool) : String :=
  if ratAbs value < ((1000 : ℕ) : ℚ) then
    if forceDecimals then toFixed value 1 else qToString value
  else abbreviateLoop value forceDecimals abbreviations

end NumberFormatter

/-- `abbreviate` as §4.2 of the spec words it: for `|value| < 1000` the value
as-is (one decimal place under `forceDecimals`); otherwise divide by the
largest threshold in {1e12:T, 1e9:B, 1e6:M, 1e3:K} not exceeding `|value|`
and append the suffix, with one decimal place exactly when `forceDecimals` is
set or the quotient has a nonzero fractional part and is `< 100`, and
otherwise the quotient rounded to an integer. -/
def specAbbreviate (value : ℚ) (forceDecimals : Bool) : String :=
  let render : ℕ → String → String := fun e sfx =>
    let q := ratDivPow10 value e
    if forceDecimals ∨ (q.den ≠ 1 ∧ q < 100) then toFixed q 1 ++ sfx
    else intRepr (roundJs q) ++ sfx
  if ratAbs value < ((1000 : ℕ) : ℚ) then
    if forceDecimals then toFixed value 1 else qToString value
  else if ((10 ^ 12 : ℕ) : ℚ) ≤ ratAbs value then render 12 "T"
  else if ((10 ^ 9 : ℕ) : ℚ) ≤ ratAbs value then render 9 "B"
  else if ((10 ^ 6 : ℕ) : ℚ) ≤ ratAbs value then render 6 "M"
  else render 3 "K"

/-! ## Ledger engine (`DataManager` in `src/utils/currencyFormatter.ts`) -/

/-- The `type` discriminator of a spending entry. -/
inductive EntryType where
  | expense
  | transfer
  deriving DecidableEq

/-- `SpendingEntry` (lines 453-464). -/
structure SpendingEntry where
  id : String
  date : String
  amount : ℚ
  category : String
  description : Option String
  accountId : Option String
  type : EntryType
  transferToAccountId : Option String
  createdAt : String
  updatedAt : String
  deriving DecidableEq

/-- `SavingsAccount` (lines 466-473). -/
structure SavingsAccount where
  id : String
  bankName : String
  accountName : String
  balance : ℚ
  createdAt : String
  updatedAt : String
  deriving DecidableEq

/-- `Investment` (lines 475-483). -/
structure Investment where
  id : String
  name : String
  amount : ℚ
  date : String
  notes : Option String
  createdAt : String
  updatedAt : String
  deriving DecidableEq

/-- The `localStorage`-backed state the `DataManager` reads and writes
(spending, savings, investments; the settings key is modelled separately).
Execution is single-threaded and synchronous, so each operation is a function
from state to state. -/
structure DMState where
  spending : List SpendingEntry
  savings : List SavingsAccount
  investments : List Investment
  deriving DecidableEq

/-- Truthiness of a JS `string | undefined` value (`undefined` and `""` are
falsy). -/
def strTruthy : Option String → Bool
  | none => false
  | some s => s != ""

/-- The argument of `addSpendingEntry`
(`Omit<SpendingEntry, 'id' | 'createdAt' | 'updatedAt'>`). -/
structure NewSpendingEntry where
  date : String
  amount : ℚ
  category : String
  description : Option String
  accountId : Option String
  type : EntryType
  transferToAccountId : Option String
  deriving DecidableEq

/-- `{...entry, id: Date.now().toString(), createdAt/updatedAt: now}`; the
fresh id and the ISO timestamp are environment inputs. -/
def buildEntry (entry : NewSpendingEntry) (newId nowIso : String) : SpendingEntry :=
  { id := newId, date := entry.date, amount := entry.amount,
    category := entry.category, description := entry.description,
    accountId := entry.accountId, type := entry.type,
    transferToAccountId := entry.transferToAccountId,
    createdAt := nowIso, updatedAt := nowIso }

/-- `Partial<SavingsAccount>` as passed to `updateSavingsAccount` (the fields
the source ever includes). -/
structure SavingsAccountUpdates where
  bankName : Option String
  accountName : Option String
  balance : Option ℚ
  deriving DecidableEq

/-- A `{ balance: b }` update object. -/
def balanceUpdate (b : ℚ) : SavingsAccountUpdates :=
  { bankName := none, accountName := none, balance := some b }

/-- `{...accounts[index], ...updates, updatedAt: now}`. -/
def applyAccountUpdates (acc : SavingsAccount) (u : SavingsAccountUpdates)
    (nowIso : String) : SavingsAccount :=
  { acc with bankName := u.bankName.getD acc.bankName,
             accountName := u.accountName.getD acc.accountName,
             balance := u.balance.getD acc.balance,
             updatedAt := nowIso }

/-- Replace the first account with the given id by `f` of it (the
`findIndex` / `accounts[index] = …` pattern), returning the new list and the
updated account if one matched. -/
def updateFirstAccount (id : String) (f : SavingsAccount → SavingsAccount) :
    List SavingsAccount → List SavingsAccount × Option SavingsAccount
  | [] => ([], none)
  | a :: as =>
    if a.id == id then (f a :: as, some (f a))
    else
      let r := updateFirstAccount id f as
      (a :: r.1, r.2)

/-- `DataManager.updateSavingsAccount` (lines 697-709): in-place update of the
first matching account with `updatedAt` refreshed, persisted immediately;
`none` (null) when the id does not exist. -/
def updateSavingsAccount (id : String) (u : SavingsAccountUpdates) (nowIso : String)
    (st : DMState) : DMState × Option SavingsAccount :=
  let r := updateFirstAccount id (fun a => applyAccountUpdates a u nowIso) st.savings
  match r.2 with
  | none => (st, none)
  | some acc => ({ st with savings := r.1 }, some acc)

/-- `DataManager.transferBetweenAccounts` (lines 719-731): `false` (no
mutation) when either account is missing or the source balance is too small;
otherwise debit `fromId` then credit `toId` (two immediate persists, the
credit computed from the balance read *before* the debit). -/
def transferBetweenAccounts (fromId toId : String) (amount : ℚ) (nowIso : String)
    (st : DMState) : DMState × Bool :=
  let fromAccount := st.savings.find? (fun a => a.id == fromId)
  let toAccount := st.savings.find? (fun a => a.id == toId)
  match fromAccount, toAccount with
  | some fa, some ta =>
    if fa.balance < amount then (st, false)
    else
      let st1 := (updateSavingsAccount fromId (balanceUpdate (ratSub fa.balance amount)) nowIso st).1
      let st2 := (updateSavingsAccount toId (balanceUpdate (ratAdd ta.balance amount)) nowIso st1).1
      (st2, true)
  | _, _ => (st, false)

/-- `DataManager.addSpendingEntry` (lines 573-604).  The result is the state
as persisted when the call returns or throws; `Except.error` carries the
thrown message. -/
def addSpendingEntry (entry : NewSpendingEntry) (newId nowIso : String) (st : DMState) :
    DMState × Except String SpendingEntry :=
  let entries := st.spending
  let newEntry := buildEntry entry newId nowIso
  if entry.type = .expense ∧ strTruthy entry.accountId then
    let aid := entry.accountId.getD ""
    match st.savings.find? (fun a => a.id == aid) with
    | some account =>
      if entry.amount ≤ account.balance then
        let st1 := (updateSavingsAccount aid
          (balanceUpdate (ratSub account.balance entry.amount)) nowIso st).1
        ({ st1 with spending := entries ++ [newEntry] }, .ok newEntry)
      else (st, .error "Insufficient balance in selected account")
    | none => (st, .error "Insufficient balance in selected account")
  else if entry.type = .transfer ∧ strTruthy entry.accountId ∧
      strTruthy entry.transferToAccountId then
    let r := transferBetweenAccounts (entry.accountId.getD "")
      (entry.transferToAccountId.getD "") entry.amount nowIso st
    if r.2 then ({ r.1 with spending := entries ++ [newEntry] }, .ok newEntry)
    else (r.1, .error "Transfer failed: insufficient balance or invalid accounts")
  else
    ({ st with spending := entries ++ [newEntry] }, .ok newEntry)

/-- `Partial<SpendingEntry>` as passed to `updateSpendingEntry`: `none` is an
absent key; for the optional entry fields, `some none` is a present key with
value `undefined`. -/
structure SpendingEntryUpdates where
  date : Option String
  amount : Option ℚ
  category : Option String
  description : Option (Option String)
  accountId : Option (Option String)
  type : Option EntryType
  transferToAccountId : Option (Option String)
  deriving DecidableEq

/-- `{...originalEntry, ...updates, updatedAt: now}`. -/
def mergeEntry (e : SpendingEntry) (u : SpendingEntryUpdates) (nowIso : String) :
    SpendingEntry :=
  { e with date := u.date.getD e.date,
           amount := u.amount.getD e.amount,
           category := u.category.getD e.category,
           description := u.description.getD e.description,
           accountId := u.accountId.getD e.accountId,
           type := u.type.getD e.type,
           transferToAccountId := u.transferToAccountId.getD e.transferToAccountId,
           updatedAt := nowIso }

/-- `entries[index] = updatedEntry` for the first index whose id matches. -/
def replaceFirstEntry (id : String) (newE : SpendingEntry) :
    List SpendingEntry → List SpendingEntry
  | [] => []
  | e :: es => if e.id == id then newE :: es else e :: replaceFirstEntry id newE es

/-- `DataManager.updateSpendingEntry` (lines 606-652): find the entry (null if
absent), *revert* the original entry's balance effect (each revert persists
immediately), merge the updates, then *re-apply* with the same validation as
`addSpendingEntry`, throwing on failure — at which point the revert has
already been persisted. -/
def updateSpendingEntry (id : String) (u : SpendingEntryUpdates) (nowIso : String)
    (st : DMState) : DMState × Except String (Option SpendingEntry) :=
  match st.spending.find? (fun e => e.id == id) with
  | none => (st, .ok none)
  | some originalEntry =>
    let st1 :=
      if originalEntry.type = .expense ∧ strTruthy originalEntry.accountId then
        let aid := originalEntry.accountId.getD ""
        match st.savings.find? (fun a => a.id == aid) with
        | some account =>
          (updateSavingsAccount aid
            (balanceUpdate (ratAdd account.balance originalEntry.amount)) nowIso st).1
        | none => st
      else if originalEntry.type = .transfer ∧ strTruthy originalEntry.accountId ∧
          strTruthy originalEntry.transferToAccountId then
        (transferBetweenAccounts (originalEntry.transferToAccountId.getD "")
          (originalEntry.accountId.getD "") originalEntry.amount nowIso st).1
      else st
    let updatedEntry := mergeEntry originalEntry u nowIso
    if updatedEntry.type = .expense ∧ strTruthy updatedEntry.accountId then
      let aid := updatedEntry.accountId.getD ""
      match st1.savings.find? (fun a => a.id == aid) with
      | some account =>
        if updatedEntry.amount ≤ account.balance then
          let st2 := (updateSavingsAccount aid
            (balanceUpdate (ratSub account.balance updatedEntry.amount)) nowIso st1).1
          ({ st2 with spending := replaceFirstEntry id updatedEntry st.spending },
            .ok (some updatedEntry))
        else (st1, .error "Insufficient balance in selected account")
      | none => (st1, .error "Insufficient balance in selected account")
    else if updatedEntry.type = .transfer ∧ strTruthy updatedEntry.accountId ∧
        strTruthy updatedEntry.transferToAccountId then
      let r := transferBetweenAccounts (updatedEntry.accountId.getD "")
        (updatedEntry.transferToAccountId.getD "") updatedEntry.amount nowIso st1
      if r.2 then
        ({ r.1 with spending := replaceFirstEntry id updatedEntry st.spending },
          .ok (some updatedEntry))
      else (r.1, .error "Transfer failed: insufficient balance or invalid accounts")
    else
      ({ st1 with spending := replaceFirstEntry id updatedEntry st.spending },
        .ok (some updatedEntry))

/-- `DataManager.getTotalInvestments` (lines 897-899): the source's reducer
`(total, investment) => investment.amount` ignores the accumulator, so the
fold yields the *last* investment's amount (0 for an empty list). -/
def getTotalInvestments (st : DMState) : ℚ :=
  st.investments.foldl (fun _total investment => investment.amount) 0

/-- The sum of all investment amounts — the behavior §3/§8/§9 of the spec
declare to be the intended semantics of `getTotalInvestments`. -/
def sumInvestments (st : DMState) : ℚ :=
  st.investments.foldl (fun total investment => ratAdd total investment.amount) 0

/-! ## Settings store (`DataManager.getSettings` / `updateSettings`) -/

/-- A JS `{[category]: color}` object as an association list with unique keys
(property lookup finds the first, and only, binding). -/
def colorLookup (m : List (String × String)) (k : String) : Option String :=
  match m with
  | [] => none
  | p :: ps => if p.1 == k then some p.2 else colorLookup ps k

/-- JS property assignment `m[k] = v`: overwrite the binding if the key is
present, else append a new one. -/
def colorSet (m : List (String × String)) (k v : String) : List (String × String) :=
  match m with
  | [] => [(k, v)]
  | p :: ps => if p.1 == k then (p.1, v) :: ps else p :: colorSet ps k v

/-- Truthiness of `m[category]` (`undefined` and `""` are falsy). -/
def colorTruthy (m : List (String × String)) (k : String) : Bool :=
  match colorLookup m k with
  | some v => v != ""
  | none => false

/-- The `forEach` loop that gives every listed category a color, defaulting
the missing ones to gray `#6b7280`. -/
def ensureColors (cats : List String) (m : List (String × String)) :
    List (String × String) :=
  cats.foldl (fun acc c => if colorTruthy acc c then acc else colorSet acc c "#6b7280") m

/-- `defaultCategories` (lines 500-510). -/
def defaultCategories : List String :=
  ["Food", "Transport", "Entertainment", "Shopping", "Utilities", "Healthcare",
   "Education", "Transfer", "Other"]

/-- `defaultCategoryColors` (lines 513-523). -/
def defaultCategoryColors : List (String × String) :=
  [("Food", "#ef4444"), ("Transport", "#f97316"), ("Entertainment", "#eab308"),
   ("Shopping", "#22c55e"), ("Utilities", "#06b6d4"), ("Healthcare", "#3b82f6"),
   ("Education", "#8b5cf6"), ("Transfer", "#f59e0b"), ("Other", "#6b7280")]

/-- `AppSettings` (lines 489-497). -/
structure AppSettings where
  monthlyTarget : ℚ
  categories : List String
  currency : String
  darkMode : Bool
  appTitle : String
  logoUrl : Option String
  categoryColors : List (String × String)
  deriving DecidableEq

/-- `defaultSettings` (lines 533-541). -/
def defaultSettings : AppSettings :=
  { monthlyTarget := 1000, categories := defaultCategories, currency := "USD",
    darkMode := false, appTitle := "Personal Finance Dashboard",
    logoUrl := none, categoryColors := defaultCategoryColors }

/-- What JSON-parsing the persisted settings can produce: every field may be
absent (`none`), in which case the `??`-chain of `getSettings` falls back to
the default. -/
structure StoredSettings where
  monthlyTarget : Option ℚ
  categories : Option (List String)
  currency : Option String
  darkMode : Option Bool
  appTitle : Option String
  logoUrl : Option String
  categoryColors : Option (List (String × String))
  deriving DecidableEq

/-- A fully-populated stored image of some settings (what `saveToStorage`
writes). -/
def storedOfSettings (s : AppSettings) : StoredSettings :=
  { monthlyTarget := some s.monthlyTarget, categories := some s.categories,
    currency := some s.currency, darkMode := some s.darkMode,
    appTitle := some s.appTitle, logoUrl := s.logoUrl,
    categoryColors := some s.categoryColors }

/-- `DataManager.getSettings` (lines 774-800): `??`-merge the stored value
over the defaults, then *rebuild* `categoryColors` from a copy of
`defaultCategoryColors` extended with gray for listed categories that have no
(truthy) default — the merged `categoryColors` field is discarded.  `stored =
none` models an absent storage item (`getFromStorage` then returns
`defaultSettings`). -/
def getSettings (stored : Option StoredSettings) : AppSettings :=
  let settings := stored.getD (storedOfSettings defaultSettings)
  let mergedSettings : AppSettings :=
    { monthlyTarget := settings.monthlyTarget.getD defaultSettings.monthlyTarget,
      categories := settings.categories.getD defaultSettings.categories,
      currency := settings.currency.getD defaultSettings.currency,
      darkMode := settings.darkMode.getD defaultSettings.darkMode,
      appTitle := settings.appTitle.getD defaultSettings.appTitle,
      logoUrl := settings.logoUrl,
      categoryColors := settings.categoryColors.getD defaultSettings.categoryColors }
  let updatedCategoryColors := ensureColors mergedSettings.categories defaultCategoryColors
  { mergedSettings with categoryColors := updatedCategoryColors }

/-- `Partial<AppSettings>` as passed to `updateSettings`. -/
structure SettingsUpdates where
  monthlyTarget : Option ℚ
  categories : Option (List String)
  currency : Option String
  darkMode : Option Bool
  appTitle : Option String
  logoUrl : Option (Option String)
  categoryColors : Option (List (String × String))
  deriving DecidableEq

/-- `DataManager.updateSettings` (lines 802-819): merge the updates over
`getSettings()`, give new categories gray colors, persist and return.  The
first component is the newly stored value. -/
def updateSettings (u : SettingsUpdates) (stored : Option StoredSettings) :
    StoredSettings × AppSettings :=
  let currentSettings := getSettings stored
  let newSettings : AppSettings :=
    { monthlyTarget := u.monthlyTarget.getD currentSettings.monthlyTarget,
      categories := u.categories.getD currentSettings.categories,
      currency := u.currency.getD currentSettings.currency,
      darkMode := u.darkMode.getD currentSettings.darkMode,
      appTitle := u.appTitle.getD currentSettings.appTitle,
      logoUrl := u.logoUrl.getD currentSettings.logoUrl,
      categoryColors := u.categoryColors.getD currentSettings.categoryColors }
  let newSettings :=
    match u.categories with
    | some cats => { newSettings with categoryColors := ensureColors cats newSettings.categoryColors }
    | none => newSettings
  (storedOfSettings newSettings, newSettings)

/-- Decidability of equality of `Except` results (needed to evaluate the
ledger operations' outcomes). -/
instance {e a : Type} [DecidableEq e] [DecidableEq a] : DecidableEq (Except e a) := fun x y =>
  match x, y with
  | .error u, .error v =>
    if h : u = v then isTrue (by rw [h]) else isFalse (fun hh => h (by injection hh))
  | .ok u, .ok v =>
    if h : u = v then isTrue (by rw [h]) else isFalse (fun hh => h (by injection hh))
  | .error _, .ok _ => isFalse (fun hh => by injection hh)
  | .ok _, .error _ => isFalse (fun hh => by injection hh)

/-! ## Concrete states used by the claim theorems -/

/-- A savings account `a` with the given balance. -/
def acctA (bal : ℚ) : SavingsAccount :=
  { id := "a", bankName := "Bank", accountName := "Main", balance := bal,
    createdAt := "t0", updatedAt := "t0" }

/-- A persisted expense entry of 50 against account `a`. -/
def entryE1 : SpendingEntry :=
  { id := "e1", date := "2026-01-01", amount := 50, category := "Food",
    description := none, accountId := some "a", type := .expense,
    transferToAccountId := none, createdAt := "t0", updatedAt := "t0" }

/-- State: account `a` at balance 100 (already net of `entryE1`), `entryE1`
stored. -/
def stateC1 : DMState :=
  { spending := [entryE1], savings := [acctA 100], investments := [] }

/-- The update `{ amount: 200 }`. -/
def updAmount200 : SpendingEntryUpdates :=
  { date := none, amount := some 200, category := none, description := none,
    accountId := none, type := none, transferToAccountId := none }

/-- An expense of 150 to be charged to account `a`. -/
def newExpense150 : NewSpendingEntry :=
  { date := "2026-01-02", amount := 150, category := "Food", description := none,
    accountId := some "a", type := .expense, transferToAccountId := none }

/-- An expense of 150 with no account reference. -/
def newExpenseNoAcct : NewSpendingEntry :=
  { date := "2026-01-02", amount := 150, category := "Food", description := none,
    accountId := none, type := .expense, transferToAccountId := none }

/-- State: only account `a` at balance 100. -/
def stateC7 : DMState :=
  { spending := [], savings := [acctA 100], investments := [] }

/-- An investment record with the given amount. -/
def invOf (i : String) (amt : ℚ) : Investment :=
  { id := i, name := "inv", amount := amt, date := "2026-01-01", notes := none,
    createdAt := "t0", updatedAt := "t0" }

/-- State with two investments of 10 and 20. -/
def stateC3 : DMState :=
  { spending := [], savings := [], investments := [invOf "i1" 10, invOf "i2" 20] }

/-! ## Claim theorems -/

/-- The five amounts the round-trip law (claim C2, spec §8) quantifies over. -/
def testAmounts : List ℚ := [0, dec 5 1, dec 99999 2, 1000, dec 123456789 2]

/-- An amount rounded to `d` decimal digits with `toFixed`'s tie rule — the
value "amount up to the code's configured decimal precision" that a correct
parse-after-format returns. -/
def roundToPrecision (a : ℚ) (d : ℕ) : ℚ :=
  if a < 0 then -(mkRat (toFixedScaled a d) (10 ^ d)) else mkRat (toFixedScaled a d) (10 ^ d)

/-! ## C5 lemmas: characters of a formatted nonnegative amount -/

/-- A decimal digit character. -/
def isDigitCh (c : Char) : Prop := 48 ≤ c.toNat ∧ c.toNat ≤ 57

set_option maxRecDepth 10000

theorem ratAdd_eq (a b : ℚ) : ratAdd a b = a + b := by
  rw [ratAdd, Rat.mkRat_eq_div]
  push_cast
  conv_rhs => rw [← Rat.num_div_den a, ← Rat.num_div_den b]
  rw [div_add_div _ _ (by exact_mod_cast a.den_nz) (by exact_mod_cast b.den_nz)]
  ring_nf

theorem ratSub_eq (a b : ℚ) : ratSub a b = a - b := by
  rw [ratSub, Rat.mkRat_eq_div]
  push_cast
  conv_rhs => rw [← Rat.num_div_den a, ← Rat.num_div_den b]
  rw [div_sub_div _ _ (by exact_mod_cast a.den_nz) (by exact_mod_cast b.den_nz)]
  ring_nf

theorem ratDivPow10_eq (a : ℚ) (k : ℕ) : ratDivPow10 a k = a / 10 ^ k := by
  rw [ratDivPow10, Rat.mkRat_eq_div]
  push_cast
  conv_rhs => rw [← Rat.num_div_den a]
  rw [div_div]

theorem dec_eq (n : ℤ) (k : ℕ) : dec n k = (n : ℚ) / 10 ^ k := by
  rw [dec, Rat.mkRat_eq_div]; push_cast; rfl

theorem ratAbs_eq (a : ℚ) : ratAbs a = |a| := by
  rw [ratAbs]
  rcases lt_or_le a 0 with h | h
  · simp [h, abs_of_neg h]
  · simp [not_lt.mpr h, abs_of_nonneg h]

theorem toFixedScaled_eq_floor (a : ℚ) (f : ℕ) :
    (toFixedScaled a f : ℤ) = ⌊|a| * 10 ^ f + 1 / 2⌋ := by
  have hden : (0 : ℚ) < (a.den : ℚ) := by exact_mod_cast a.den_pos
  have habs : |a| = (a.num.natAbs : ℚ) / (a.den : ℚ) := by
    conv_lhs => rw [← Rat.num_div_den a]
    rw [abs_div, abs_of_pos hden, Int.cast_natAbs, Int.cast_abs]
  have key : |a| * 10 ^ f + 1 / 2 =
      ((2 * a.num.natAbs * 10 ^ f + a.den : ℕ) : ℚ) / ((2 * a.den : ℕ) : ℚ) := by
    rw [habs]
    push_cast
    field_simp
    ring
  rw [key, Rat.floor_natCast_div_natCast]
  simp [toFixedScaled]

theorem roundJs_eq_floor (q : ℚ) : roundJs q = ⌊q + 1 / 2⌋ := by
  have key : q + 1 / 2 = ((2 * q.num + q.den : ℤ) : ℚ) / ((2 * q.den : ℕ) : ℚ) := by
    conv_lhs => rw [← Rat.num_div_den q]
    have hden : ((q.den : ℚ)) ≠ 0 := by exact_mod_cast q.den_nz
    push_cast
    field_simp
    ring
  rw [roundJs, key, Rat.floor_intCast_div_natCast]
  push_cast
  rfl

/-- C1.  The claim (and §4.3/§7 of the spec) requires `updateSpendingEntry`
to be atomic: when the re-apply step fails, balances and the stored entry
must be as before the call.  Evaluating the embedded source on a concrete
state refutes this for the implementation: updating the stored 50-expense to
amount 200 against account `a` (balance 100) throws
`InsufficientBalance`, but the revert of the original entry has already been
persisted — the account is left at balance 150, not 100. -/
theorem updateSpendingEntry_failure_leaves_revert_persisted :
    updateSpendingEntry "e1" updAmount200 "t1" stateC1 =
      ({ spending := [entryE1],
         savings := [{ acctA 100 with balance := 150, updatedAt := "t1" }],
         investments := [] },
       .error "Insufficient balance in selected account") ∧
    (updateSpendingEntry "e1" updAmount200 "t1" stateC1).1.savings ≠ stateC1.savings := by
  decide

/-- C3.  The claim states `getTotalInvestments` sums all investment amounts;
the source's reducer `(total, investment) => investment.amount` ignores the
accumulator, so on investments of 10 and 20 it returns 20 while the sum —
which §9 of the spec declares to be the intent — is 30. -/
theorem getTotalInvestments_returns_last_amount :
    getTotalInvestments stateC3 = 20 ∧ sumInvestments stateC3 = 30 ∧
    getTotalInvestments stateC3 ≠ sumInvestments stateC3 := by
  decide

/-- C4 (counterexample).  `format(1234567, 'IDR')` is not `"Rp1.234.567"`:
IDR has 2 decimals in the config and `toFixed(2)` always produces a nonempty
fraction part, so the code renders `",00"`. -/
theorem format_idr_whole_amount_not_bare :
    CurrencyFormatter.format 1234567 "IDR" ≠ "Rp1.234.567" := by
  decide

/-- C4 (amended).  IDR amounts render with the dot as thousands separator
and always with the config's 2 decimals: `format(1234567, 'IDR') =
"Rp1.234.567,00"` and `format(1234567.5, 'IDR') = "Rp1.234.567,50"`. -/
theorem format_idr_renders_two_decimals :
    CurrencyFormatter.format 1234567 "IDR" = "Rp1.234.567,00" ∧
    CurrencyFormatter.format (dec 12345675 1) "IDR" = "Rp1.234.567,50" := by
  decide

/-- C6.  `format(1234567.89, 'INR') = "₹12,34,567.89"`: the INR branch groups
the last three integer digits and then the remainder in pairs of two — a
different result from the standard triplet grouping of the same digits. -/
theorem format_inr_lakh_crore_grouping :
    CurrencyFormatter.format (dec 123456789 2) "INR" = "₹12,34,567.89" ∧
    CurrencyFormatter.formatWithoutSymbol 1234567 "INR" = "12,34,567.00" ∧
    groupDigits "," 3 (natDigits 1234567) = "1,234,567" := by
  decide

/-- C7.  For any ledger state whose first account with id `aid` has balance
100, adding an expense entry of amount 150 charged to `aid` fails with the
`InsufficientBalance` error and returns the state completely unchanged: the
entry is not persisted and no balance moves. -/
theorem addSpendingEntry_insufficient_balance_no_mutation
    (st : DMState) (aid newId nowIso : String) (e : NewSpendingEntry)
    (acc : SavingsAccount)
    (hfind : st.savings.find? (fun a => a.id == aid) = some acc)
    (hbal : acc.balance = 100)
    (htype : e.type = .expense)
    (haid : e.accountId = some aid)
    (hne : aid ≠ "")
    (hamt : e.amount = 150) :
    addSpendingEntry e newId nowIso st =
      (st, .error "Insufficient balance in selected account") := by
  have htr : strTruthy (some aid) = true := by
    simp [strTruthy, hne]
  simp only [addSpendingEntry, haid, htype, htr, Option.getD_some, hfind, hamt, hbal]
  norm_num

/-- C7 witness: account `a` at balance 100, expense of 150 against it. -/
theorem addSpendingEntry_insufficient_balance_no_mutation_witness :
    addSpendingEntry newExpense150 "n1" "t1" stateC7 =
      (stateC7, .error "Insufficient balance in selected account") :=
  addSpendingEntry_insufficient_balance_no_mutation stateC7 "a" "n1" "t1"
    newExpense150 (acctA 100) (by decide) (by decide) (by decide) (by decide)
    (by decide) (by decide)

/-- C10.  An expense entry whose `accountId` is `undefined` is persisted with
no balance check at all: `addSpendingEntry` succeeds, appends the entry, and
every savings account is left untouched. -/
theorem addSpendingEntry_expense_without_account_skips_balance
    (st : DMState) (newId nowIso : String) (e : NewSpendingEntry)
    (htype : e.type = .expense) (haid : e.accountId = none) :
    addSpendingEntry e newId nowIso st =
      ({ st with spending := st.spending ++ [buildEntry e newId nowIso] },
        .ok (buildEntry e newId nowIso)) ∧
    (addSpendingEntry e newId nowIso st).1.savings = st.savings := by
  have h1 : ¬(e.type = .expense ∧ strTruthy e.accountId) := by
    simp [haid, strTruthy]
  have h2 : ¬(e.type = .transfer ∧ strTruthy e.accountId ∧
      strTruthy e.transferToAccountId) := by
    rw [htype]
    simp
  refine ⟨?_, ?_⟩ <;> simp only [addSpendingEntry, if_neg h1, if_neg h2]

/-- C10 witness: an account-less expense of 150 on the one-account state. -/
theorem addSpendingEntry_expense_without_account_skips_balance_witness :
    addSpendingEntry newExpenseNoAcct "n1" "t1" stateC7 =
      ({ stateC7 with
          spending := stateC7.spending ++ [buildEntry newExpenseNoAcct "n1" "t1"] },
        .ok (buildEntry newExpenseNoAcct "n1" "t1")) ∧
    (addSpendingEntry newExpenseNoAcct "n1" "t1" stateC7).1.savings = stateC7.savings :=
  addSpendingEntry_expense_without_account_skips_balance stateC7 "n1" "t1"
    newExpenseNoAcct (by decide) (by decide)

/-- C2 (amended).  The round-trip law holds for every supported currency
whose thousands separator is not `.` (25 of the 31 codes): for each amount in
{0, 0.5, 999.99, 1000, 1234567.89}, `parse(format(amount, code), code)` is
the amount rounded to the code's configured decimals.  It fails for the six
dot-separated codes (EUR, IDR, DKK, BRL, TRY, VND), whose separators `parse`
never strips. -/
theorem parse_format_roundtrip_non_dot_separators :
    ∀ p ∈ CURRENCIES, p.2.thousandsSeparator ≠ "." →
      ∀ a ∈ testAmounts,
        CurrencyFormatter.parse (CurrencyFormatter.format a p.1) p.1 =
          roundToPrecision a p.2.decimals := by
  decide

/-- C2 witness: USD at amount 999.99 round-trips to 999.99. -/
theorem parse_format_roundtrip_non_dot_separators_witness :
    CurrencyFormatter.parse (CurrencyFormatter.format (dec 99999 2) "USD") "USD" =
      roundToPrecision (dec 99999 2) usdConfig.decimals :=
  parse_format_roundtrip_non_dot_separators ("USD", usdConfig) (by decide) (by decide)
    (dec 99999 2) (by decide)

/-- C2 (counterexample).  EUR is a supported code and 1000 one of the claim's
amounts, yet `parse(format(1000, 'EUR'), 'EUR') = 1`: the formatted string
`"1.000,00 €"` keeps its dot separator, the comma becomes a decimal point,
and `parseFloat("1.000.00")` stops at the second dot.  1 is 999 away from
1000 — far outside the two-decimal precision the claim allows. -/
theorem parse_format_roundtrip_fails_for_eur :
    (CURRENCIES.map Prod.fst).contains "EUR" = true ∧
    (1000 : ℚ) ∈ testAmounts ∧
    CurrencyFormatter.format 1000 "EUR" = "1.000,00 €" ∧
    CurrencyFormatter.parse (CurrencyFormatter.format 1000 "EUR") "EUR" = 1 ∧
    ratAbs (ratSub 1 1000) = 999 ∧
    roundToPrecision 1000 (lookupCurrency "EUR").decimals = 1000 := by
  decide

/-! ## C9 lemmas: what `ensureColors` makes observable -/

theorem colorLookup_colorSet (m : List (String × String)) (c v k : String) :
    colorLookup (colorSet m c v) k = if k = c then some v else colorLookup m k := by
  induction m with
  | nil =>
    by_cases h : k = c
    · simp [colorSet, colorLookup, h]
    · have h' : ¬ c = k := fun hh => h hh.symm
      simp [colorSet, colorLookup, h, h']
  | cons p ps ih =>
    by_cases hp : p.1 = c
    · by_cases hk : k = c
      · simp [colorSet, colorLookup, hp, hk]
      · have h' : ¬ c = k := fun hh => hk hh.symm
        simp [colorSet, colorLookup, hp, hk, h']
    · by_cases hpk : p.1 = k
      · have : ¬ k = c := fun hh => hp (by rw [hpk, hh])
        simp [colorSet, colorLookup, hp, hpk, this]
      · simp [colorSet, colorLookup, hp, hpk, ih]

theorem colorSet_mem (m : List (String × String)) (c v : String)
    (p : String × String) (hp : p ∈ colorSet m c v) : p ∈ m ∨ p.2 = v := by
  induction m with
  | nil =>
    simp [colorSet] at hp
    right
    rw [hp]
  | cons q qs ih =>
    by_cases hq : q.1 = c
    · simp [colorSet, hq] at hp
      rcases hp with hp | hp
      · right; rw [hp]
      · left; exact List.mem_cons_of_mem _ hp
    · simp [colorSet, hq] at hp
      rcases hp with hp | hp
      · left; rw [hp]; exact List.mem_cons_self _ _
      · rcases ih hp with h | h
        · left; exact List.mem_cons_of_mem _ h
        · right; exact h

theorem colorLookup_mem (m : List (String × String)) (k v : String)
    (h : colorLookup m k = some v) : (k, v) ∈ m := by
  induction m with
  | nil => simp [colorLookup] at h
  | cons p ps ih =>
    by_cases hp : p.1 = k
    · simp [colorLookup, hp] at h
      rw [← hp, ← h]
      exact List.mem_cons_self _ _
    · simp [colorLookup, hp] at h
      exact List.mem_cons_of_mem _ (ih h)

/-- Looking a key up after the gray-defaulting `forEach`: present (truthy)
bindings are preserved, missing listed categories become gray, and nothing
else appears. -/
theorem colorLookup_ensureColors (cats : List String) (m : List (String × String))
    (k : String) (hm : ∀ p ∈ m, p.2 ≠ "") :
    colorLookup (ensureColors cats m) k =
      match colorLookup m k with
      | some v => some v
      | none => if k ∈ cats then some "#6b7280" else none := by
  induction cats generalizing m with
  | nil => cases h : colorLookup m k <;> simp [ensureColors, h]
  | cons c cs ih =>
    have step : ensureColors (c :: cs) m =
        ensureColors cs (if colorTruthy m c then m else colorSet m c "#6b7280") := rfl
    rw [step]
    by_cases htr : colorTruthy m c = true
    · rw [if_pos htr, ih m hm]
      have hc : ∃ v, colorLookup m c = some v := by
        unfold colorTruthy at htr
        cases h : colorLookup m c with
        | none => rw [h] at htr; simp at htr
        | some v => exact ⟨v, rfl⟩
      cases h : colorLookup m k with
      | some v => simp
      | none =>
        have hkc : k ≠ c := by
          intro hh
          rcases hc with ⟨v, hv⟩
          rw [hh, hv] at h
          exact Option.noConfusion h
        simp [hkc]
    · have hmc : colorLookup m c = none := by
        unfold colorTruthy at htr
        cases h : colorLookup m c with
        | none => rfl
        | some v =>
          rw [h] at htr
          have hv : v ≠ "" := hm (c, v) (colorLookup_mem m c v h)
          simp [hv] at htr
      rw [if_neg htr]
      have hm' : ∀ p ∈ colorSet m c "#6b7280", p.2 ≠ "" := by
        intro p hp
        rcases colorSet_mem m c "#6b7280" p hp with h | h
        · exact hm p h
        · rw [h]; intro hh; exact String.noConfusion hh (fun hd => List.noConfusion hd)
      rw [ih (colorSet m c "#6b7280") hm']
      by_cases hkc : k = c
      · rw [hkc]
        simp [colorLookup_colorSet, hmc]
      · simp only [colorLookup_colorSet, if_neg hkc]
        cases h : colorLookup m k with
        | some v => simp
        | none => simp [hkc]

/-- C9.  Whatever settings state is stored (including custom category colors
saved through `updateSettings`), the `categoryColors` map `getSettings`
returns is built only from the built-in `defaultCategoryColors` table plus
the default gray `#6b7280` for listed categories missing from that table:
looking up any category yields its default color, gray when it is listed but
has no default, and nothing otherwise — and the whole result of
`getSettings` is unchanged under arbitrary replacement of the stored
`categoryColors`. -/
theorem getSettings_colors_determined_by_defaults :
    (∀ (stored : Option StoredSettings) (cat : String),
      colorLookup (getSettings stored).categoryColors cat =
        match colorLookup defaultCategoryColors cat with
        | some v => some v
        | none =>
          if cat ∈ (getSettings stored).categories then some "#6b7280" else none) ∧
    (∀ (s : StoredSettings) (c₁ c₂ : Option (List (String × String))),
      getSettings (some { s with categoryColors := c₁ }) =
        getSettings (some { s with categoryColors := c₂ })) := by
  constructor
  · intro stored cat
    have hdef : ∀ p ∈ defaultCategoryColors, p.2 ≠ "" := by decide
    exact colorLookup_ensureColors (getSettings stored).categories
      defaultCategoryColors cat hdef
  · intro s c₁ c₂
    rfl

/-- C8.  `NumberFormatter.abbreviate` behaves exactly as the claim describes
(`specAbbreviate` transcribes the claim/spec wording): values under 1000 pass
through (one decimal under `forceDecimals`), larger ones are divided by the
largest of {1e3:K, 1e6:M, 1e9:B, 1e12:T} not exceeding `|value|`, shown with
one decimal exactly when forced or when the quotient is non-integral and
`< 100`, else rounded; in particular `abbreviate(1500) = "1.5K"` and
`abbreviate(150000000) = "150M"`. -/
theorem abbreviate_matches_spec :
    (∀ (value : ℚ) (forceDecimals : Bool),
      NumberFormatter.abbreviate value forceDecimals = specAbbreviate value forceDecimals) ∧
    NumberFormatter.abbreviate 1500 false = "1.5K" ∧
    NumberFormatter.abbreviate 150000000 false = "150M" := by
  refine ⟨?_, by decide, by decide⟩
  intro v fd
  have hpow : ((10 ^ 3 : ℕ) : ℚ) = ((1000 : ℕ) : ℚ) := by norm_num
  simp only [NumberFormatter.abbreviate, specAbbreviate, NumberFormatter.abbreviations,
    NumberFormatter.abbreviateLoop]
  split_ifs <;> try rfl
  all_goals
    exfalso
    have h1000 : ((1000 : ℕ) : ℚ) ≤ ratAbs v :=
      not_lt.mp (by assumption : ¬ ratAbs v < ((1000 : ℕ) : ℚ))
    have h3 : ((10 ^ 3 : ℕ) : ℚ) ≤ ratAbs v := by rw [hpow]; exact h1000
    exact absurd h3 (by assumption)

theorem isDigitCh_ofNat_mod (n : ℕ) : isDigitCh (Char.ofNat (48 + n % 10)) := by
  have h : n % 10 < 10 := Nat.mod_lt _ (by norm_num)
  generalize hk : n % 10 = k at h
  interval_cases k <;> exact ⟨by decide, by decide⟩

theorem mem_natDigitsAux (fuel : ℕ) :
    ∀ (n : ℕ) (acc : List Char) (c : Char),
      c ∈ natDigitsAux fuel n acc → isDigitCh c ∨ c ∈ acc := by
  induction fuel with
  | zero => exact fun n acc c hc => Or.inr hc
  | succ fuel ih =>
    intro n acc c hc
    simp only [natDigitsAux] at hc
    by_cases h : n < 10
    · rw [if_pos h] at hc
      rcases List.mem_cons.mp hc with h1 | h1
      · exact Or.inl (h1 ▸ isDigitCh_ofNat_mod n)
      · exact Or.inr h1
    · rw [if_neg h] at hc
      rcases ih (n / 10) _ c hc with h1 | h1
      · exact Or.inl h1
      · rcases List.mem_cons.mp h1 with h2 | h2
        · exact Or.inl (h2 ▸ isDigitCh_ofNat_mod n)
        · exact Or.inr h2

theorem mem_natDigits (n : ℕ) (c : Char) (hc : c ∈ natDigits n) : isDigitCh c := by
  rcases mem_natDigitsAux (n + 1) n [] c hc with h | h
  · exact h
  · exact absurd h (List.not_mem_nil c)

theorem mem_padLeftZeros (s : List Char) (k : ℕ) (c : Char)
    (hc : c ∈ padLeftZeros s k) : c ∈ s ∨ c = '0' := by
  rcases List.mem_append.mp hc with h | h
  · exact Or.inr (List.eq_of_mem_replicate h)
  · exact Or.inl h

/-- `(⟨l⟩ : String).data = l`. -/
theorem data_mk (l : List Char) : (⟨l⟩ : String).data = l := rfl

theorem mem_groupGo (sep : String) (g : ℕ) (ds : List Char) (c : Char)
    (hc : c ∈ (groupGo sep g ds).data) : c ∈ ds ∨ c ∈ sep.data := by
  induction ds with
  | nil => exact absurd hc (List.not_mem_nil c)
  | cons d ds ih =>
    simp only [groupGo, String.data_append] at hc
    rcases List.mem_append.mp hc with h | h
    · rcases List.mem_append.mp h with h1 | h1
      · rw [show (String.singleton d).data = [d] from rfl] at h1
        rcases List.mem_singleton.mp h1 with h2
        exact Or.inl (h2 ▸ List.mem_cons_self d ds)
      · by_cases hcnd : ds.length % g = 0 ∧ ds.length ≠ 0
        · rw [if_pos hcnd] at h1
          exact Or.inr h1
        · rw [if_neg hcnd] at h1
          exact absurd h1 (List.not_mem_nil c)
    · rcases ih h with h1 | h1
      · exact Or.inl (List.mem_cons_of_mem d h1)
      · exact Or.inr h1

theorem mem_groupDigits (sep : String) (g : ℕ) (s : List Char) (c : Char)
    (hc : c ∈ (groupDigits sep g s).data) : c ∈ s ∨ c ∈ sep.data := by
  unfold groupDigits at hc
  split at hc
  · rw [String.data_append] at hc
    rcases List.mem_append.mp hc with h | h
    · rw [show ("-" : String).data = ['-'] from rfl] at h
      rcases List.mem_singleton.mp h with h1
      exact Or.inl (h1 ▸ List.mem_cons_self '-' _)
    · rcases mem_groupGo sep g _ c h with h1 | h1
      · exact Or.inl (List.mem_cons_of_mem '-' h1)
      · exact Or.inr h1
  · exact mem_groupGo sep g _ c hc

theorem mem_toFixedParts_fst (a : ℚ) (f : ℕ) (h : 0 ≤ a) (c : Char)
    (hc : c ∈ (toFixedParts a f).1) : isDigitCh c := by
  have hnum : ¬ a.num < 0 := not_lt.mpr (Rat.num_nonneg.mpr h)
  simp only [toFixedParts, if_neg hnum, List.nil_append] at hc
  have hc' : c ∈ padLeftZeros (natDigits (toFixedScaled a f)) (f + 1) :=
    List.take_subset _ _ hc
  rcases mem_padLeftZeros _ _ c hc' with h1 | h1
  · exact mem_natDigits _ c h1
  · exact h1 ▸ ⟨by decide, by decide⟩

theorem mem_toFixedParts_snd (a : ℚ) (f : ℕ) (c : Char)
    (hc : c ∈ (toFixedParts a f).2) : isDigitCh c := by
  simp only [toFixedParts] at hc
  have hc' : c ∈ padLeftZeros (natDigits (toFixedScaled a f)) (f + 1) :=
    List.drop_subset _ _ hc
  rcases mem_padLeftZeros _ _ c hc' with h1 | h1
  · exact mem_natDigits _ c h1
  · exact h1 ▸ ⟨by decide, by decide⟩

/-- Characters of `formatNumber` of a nonnegative amount: decimal digits, the
config's separators, or the hard-coded INR comma. -/
theorem mem_formatNumber (a : ℚ) (cfg : CurrencyConfig) (h : 0 ≤ a) (c : Char)
    (hc : c ∈ (CurrencyFormatter.formatNumber a cfg).data) :
    isDigitCh c ∨ c ∈ cfg.thousandsSeparator.data ∨ c ∈ cfg.decimalSeparator.data ∨
      c = ',' := by
  simp only [CurrencyFormatter.formatNumber] at hc
  have hfst := mem_toFixedParts_fst a cfg.decimals h
  have hsnd := mem_toFixedParts_snd a cfg.decimals
  have hcomma : (("," : String)).data = [','] := rfl
  split_ifs at hc
  all_goals
    try simp only [String.data_append, List.mem_append, data_mk, hcomma,
      List.mem_singleton] at hc
  -- IDR branch, with decimals
  · rcases hc with (hg | hd) | hp
    · rcases mem_groupDigits _ _ _ c hg with hx | hx
      · exact Or.inl (hfst c hx)
      · exact Or.inr (Or.inl hx)
    · exact Or.inr (Or.inr (Or.inl hd))
    · exact Or.inl (hsnd c hp)
  -- IDR branch, no decimal part
  · rcases mem_groupDigits _ _ _ c hc with hx | hx
    · exact Or.inl (hfst c hx)
    · exact Or.inr (Or.inl hx)
  -- INR with long integer part, with decimals
  · rcases hc with (((hg | hcm) | hl3) | hd) | hp
    · rcases mem_groupDigits _ _ _ c hg with hx | hx
      · exact Or.inl (hfst c (List.take_subset _ _ hx))
      · rw [hcomma] at hx
        exact Or.inr (Or.inr (Or.inr (List.mem_singleton.mp hx)))
    · exact Or.inr (Or.inr (Or.inr hcm))
    · exact Or.inl (hfst c (List.drop_subset _ _ hl3))
    · exact Or.inr (Or.inr (Or.inl hd))
    · exact Or.inl (hsnd c hp)
  -- INR short integer part, with decimals
  · rcases hc with (hg | hd) | hp
    · exact Or.inl (hfst c hg)
    · exact Or.inr (Or.inr (Or.inl hd))
    · exact Or.inl (hsnd c hp)
  -- INR long integer part, no decimals
  · rcases hc with (hg | hcm) | hl3
    · rcases mem_groupDigits _ _ _ c hg with hx | hx
      · exact Or.inl (hfst c (List.take_subset _ _ hx))
      · rw [hcomma] at hx
        exact Or.inr (Or.inr (Or.inr (List.mem_singleton.mp hx)))
    · exact Or.inr (Or.inr (Or.inr hcm))
    · exact Or.inl (hfst c (List.drop_subset _ _ hl3))
  -- INR short integer part, no decimals
  · exact Or.inl (hfst c hc)
  -- standard branch, with decimals
  · rcases hc with (hg | hd) | hp
    · rcases mem_groupDigits _ _ _ c hg with hx | hx
      · exact Or.inl (hfst c hx)
      · exact Or.inr (Or.inl hx)
    · exact Or.inr (Or.inr (Or.inl hd))
    · exact Or.inl (hsnd c hp)
  -- standard branch, no decimal part
  · rcases mem_groupDigits _ _ _ c hc with hx | hx
    · exact Or.inl (hfst c hx)
    · exact Or.inr (Or.inl hx)

/-- No configured separator (of any supported or fallback currency) contains
a minus sign. -/
theorem lookupCurrency_seps_no_minus (cc : String) :
    '-' ∉ (lookupCurrency cc).thousandsSeparator.data ∧
    '-' ∉ (lookupCurrency cc).decimalSeparator.data := by
  unfold lookupCurrency
  cases hfind : CURRENCIES.find? (fun p => p.1 == cc) with
  | none => exact ⟨by decide, by decide⟩
  | some p =>
    have hp : p ∈ CURRENCIES := List.mem_of_find?_eq_some hfind
    have hall : ∀ q ∈ CURRENCIES, '-' ∉ q.2.thousandsSeparator.data ∧
        '-' ∉ q.2.decimalSeparator.data := by decide
    exact hall p hp

/-- C5 (counterexample).  `format` does not render the absolute value: for
amount −1234.5 and USD the numeric part is `"-1,234.50"` — it carries the
sign of `toFixed` and differs from the rendering of |−1234.5|. -/
theorem format_negative_carries_sign :
    CurrencyFormatter.formatWithoutSymbol (dec (-123450) 2) "USD" = "-1,234.50" ∧
    CurrencyFormatter.formatWithoutSymbol (ratAbs (dec (-123450) 2)) "USD" = "1,234.50" ∧
    '-' ∈ (CurrencyFormatter.formatWithoutSymbol (dec (-123450) 2) "USD").data ∧
    CurrencyFormatter.format (dec (-123450) 2) "USD" = "$-1,234.50" := by
  decide

/-- C5 (amended).  For every *nonnegative* amount and every currency code the
numeric rendering equals that of the absolute value and carries no sign
anywhere; negative amounts instead keep the minus sign produced by
`toFixed` (see `format_negative_carries_sign`). -/
theorem formatWithoutSymbol_nonneg_unsigned :
    ∀ (a : ℚ), 0 ≤ a → ∀ (cc : String),
      CurrencyFormatter.formatWithoutSymbol a cc =
        CurrencyFormatter.formatWithoutSymbol (ratAbs a) cc ∧
      '-' ∉ (CurrencyFormatter.formatWithoutSymbol a cc).data := by
  intro a ha cc
  have habs : ratAbs a = a := by rw [ratAbs, if_neg (not_lt.mpr ha)]
  refine ⟨by rw [habs], ?_⟩
  intro hmem
  rcases mem_formatNumber a (lookupCurrency cc) ha '-' hmem with hd | hs | hs | hs
  · exact absurd hd (by unfold isDigitCh; decide)
  · exact absurd hs (lookupCurrency_seps_no_minus cc).1
  · exact absurd hs (lookupCurrency_seps_no_minus cc).2
  · exact absurd hs (by decide)

/-- C5 witness: amount 1234.5 in USD renders unsigned. -/
theorem formatWithoutSymbol_nonneg_unsigned_witness :
    CurrencyFormatter.formatWithoutSymbol (dec 123450 2) "USD" =
      CurrencyFormatter.formatWithoutSymbol (ratAbs (dec 123450 2)) "USD" ∧
    '-' ∉ (CurrencyFormatter.formatWithoutSymbol (dec 123450 2) "USD").data :=
  formatWithoutSymbol_nonneg_unsigned (dec 123450 2) (by decide) "USD"
